import Mathlib

/-!
Verification of the kong repository's cache core: the snapshot data model
(`Data`), staleness determination, the on-disk snapshot store
(`WriteFile` / `LoadData`), the concurrent refresh orchestrator
(`Data.load` and the category loaders), the foreground accessors,
the background daemon loop, the Jira client's board lookup and
paginated search, the CLI error-exit routine, and the status-acronym
helper. All definitions are shallow embeddings of the Go source;
machine integers are modelled as `Int`/`Nat` (none of the involved
arithmetic can overflow in the source's domain), time instants as
integer values, Go maps as association lists, fallible Go functions as
`Except`-style results, and a Go panic as a distinguished outcome.
-/

namespace Kong

/-- Go error values, as they matter to this program: the
`ErrConfigMissing` sentinel, a remote-response error created by
`parseResponseError` (carrying the response body), a wrapping via
`fmt.Errorf("...: %w", e)`, and a plain `errors.New` message. Equality
of the model mirrors Go's `==` on error values: the sentinel equals
only itself, and a wrapped error never equals the sentinel it wraps. -/
inductive GoErr where
  | configMissing : GoErr
  | remote (body : String) : GoErr
  | wrap (label : String) (e : GoErr) : GoErr
  | msg (s : String) : GoErr
deriving DecidableEq, Repr

/-- `Error()` for the modelled error values: `fmt.Errorf("l: %w", e)`
renders as the label, a colon-space, then the wrapped error's text. -/
def GoErr.errorString : GoErr → String
  | .configMissing => "configuration missing"
  | .remote body => body
  | .wrap label e => label ++ ": " ++ e.errorString
  | .msg s => s

/-- Outcome of running a Go function that can return a value, return an
error, or panic. -/
inductive RunResult (α : Type) where
  | ok (a : α) : RunResult α
  | error (e : GoErr) : RunResult α
  | panics : RunResult α
deriving DecidableEq, Repr

/-- `Transition` from model.go: a Jira transition abstraction. -/
structure Transition where
  ID : String
  Name : String
  Description : String
  Acronym : String
deriving DecidableEq, Repr

/-- `Status` from model.go: a Jira status abstraction. -/
structure Status where
  Name : String
  Acronym : String
  IsDone : Bool
deriving DecidableEq, Repr

/-- `Issue` from model.go, with the Go maps `TransitionsByAcronym` and
`OrderByTransitionStatus` modelled as association lists. -/
structure Issue where
  Key : String
  Summary : String
  Priority : String
  Status : Status
  Transitions : List Transition
  TransitionsByAcronym : List (String × Transition)
  OrderByTransitionStatus : List (String × Nat)
  SprintID : Int
deriving DecidableEq, Repr

/-- `Sprint` from model.go; the `time.Time` end date is modelled as an
integer instant. -/
structure Sprint where
  ID : Int
  Name : String
  State : String
  EndDate : Int
deriving DecidableEq, Repr

/-- The persisted fields of `Data` from data.go (the unexported `jira`
client field is not serialized and is modelled separately as the
`Remote` environment). Go maps are association lists. -/
structure Data where
  Timestamp : Int
  Issues : List Issue
  IssueByKey : List (String × Issue)
  Initiatives : List Issue
  Epics : List Issue
  SprintIssues : List Issue
  BoardID : Int
  Sprints : List Sprint
  SprintsByName : List (String × Sprint)
  ActiveSprint : Sprint
  Transitions : List Transition
  LastIssueCreated : String
deriving DecidableEq, Repr

/-- The zero `Sprint` value (`Sprint{}`). -/
def Sprint.zero : Sprint := ⟨0, "", "", 0⟩

/-- The zero `Data` value (`Data{}`); `NewData()` differs from it in Go
only by allocating the two (empty) maps, which coincide with the empty
association list here. -/
def Data.zero : Data :=
  ⟨0, [], [], [], [], [], 0, [], [], Sprint.zero, [], ""⟩

/-- `NewData` from data.go. -/
def NewData : Data := Data.zero

/-- `refreshRate` (10 seconds), the daemon cadence, in seconds. -/
def refreshRate : Int := 10

/-- `expiry = refreshRate * 2` from data.go. -/
def expiry : Int := refreshRate * 2

/-- The staleness comparison of `Data.Stale`, generalized over the
refresh interval the way the spec states it:
`time.Unix(timestamp, 0).Before(now.Add(-refreshInterval*2))`, i.e.
`timestamp < now - refreshInterval*2`. -/
def staleCheck (timestamp now refreshInterval : Int) : Bool :=
  timestamp < now - refreshInterval * 2

/-- `Data.Stale` from data.go, with the current instant made explicit:
`time.Unix(d.Timestamp, 0).Before(now.Add(-expiry))`. -/
def Data.Stale (d : Data) (now : Int) : Bool :=
  staleCheck d.Timestamp now refreshRate

/-! ### The serialization layer (`encoding/gob`), modelled

`WriteFile` and `LoadData` delegate serialization to `encoding/gob`.
The model below is a concrete, executable codec over token streams with
gob's two observable failure modes: running out of input mid-value
(`io.ErrUnexpectedEOF`, produced by a truncated file) and every other
decode error (malformed data). It encodes exactly the exported fields
of `Data`, in declaration order. -/

instance exceptDecEq {ε α : Type} [DecidableEq ε] [DecidableEq α] :
    DecidableEq (Except ε α) := fun x y =>
  match x, y with
  | .ok a, .ok b =>
    if h : a = b then .isTrue (by rw [h]) else .isFalse (by simp [h])
  | .ok _, .error _ => .isFalse (by simp)
  | .error _, .ok _ => .isFalse (by simp)
  | .error e, .error f =>
    if h : e = f then .isTrue (by rw [h]) else .isFalse (by simp [h])

/-- Decode failures: `truncated` models `io.ErrUnexpectedEOF` (input
ended mid-value); `malformed` models every other gob decode error. -/
inductive DecErr where
  | truncated : DecErr
  | malformed : DecErr
deriving DecidableEq, Repr

/-- The serialized stream. -/
abbrev Bytes := List Nat

def encNat (n : Nat) : Bytes := [n]

def decNat : Bytes → Except DecErr (Nat × Bytes)
  | [] => .error .truncated
  | n :: r => .ok (n, r)

def encInt (i : Int) : Bytes := if 0 ≤ i then [0, i.toNat] else [1, (-i).toNat]

def decInt : Bytes → Except DecErr (Int × Bytes)
  | [] => .error .truncated
  | 0 :: [] => .error .truncated
  | 0 :: n :: r => .ok ((n : Int), r)
  | 1 :: [] => .error .truncated
  | 1 :: n :: r => .ok (-(n : Int), r)
  | _ :: _ => .error .malformed

def encBool (b : Bool) : Bytes := [if b then 1 else 0]

def decBool : Bytes → Except DecErr (Bool × Bytes)
  | [] => .error .truncated
  | 0 :: r => .ok (false, r)
  | 1 :: r => .ok (true, r)
  | _ :: _ => .error .malformed

def encChar (c : Char) : Bytes := [c.toNat]

def decChar : Bytes → Except DecErr (Char × Bytes)
  | [] => .error .truncated
  | n :: r =>
    if (Char.ofNat n).toNat = n then .ok (Char.ofNat n, r) else .error .malformed

def encList {α : Type} (enc : α → Bytes) (xs : List α) : Bytes :=
  encNat xs.length ++ (xs.map enc).flatten

def decListAux {α : Type} (dec : Bytes → Except DecErr (α × Bytes)) :
    Nat → Bytes → Except DecErr (List α × Bytes)
  | 0, b => .ok ([], b)
  | n + 1, b =>
    match dec b with
    | .error e => .error e
    | .ok (x, b1) =>
      match decListAux dec n b1 with
      | .error e => .error e
      | .ok (xs, b2) => .ok (x :: xs, b2)

def decList {α : Type} (dec : Bytes → Except DecErr (α × Bytes)) (b : Bytes) :
    Except DecErr (List α × Bytes) :=
  match decNat b with
  | .error e => .error e
  | .ok (n, b1) => decListAux dec n b1

def encPair {α β : Type} (ea : α → Bytes) (eb : β → Bytes) (p : α × β) : Bytes :=
  ea p.1 ++ eb p.2

def decPair {α β : Type} (da : Bytes → Except DecErr (α × Bytes))
    (db : Bytes → Except DecErr (β × Bytes)) (b : Bytes) :
    Except DecErr ((α × β) × Bytes) :=
  match da b with
  | .error e => .error e
  | .ok (x, b1) =>
    match db b1 with
    | .error e => .error e
    | .ok (y, b2) => .ok ((x, y), b2)

def encString (s : String) : Bytes := encList encChar s.data

def decString (b : Bytes) : Except DecErr (String × Bytes) :=
  match decList decChar b with
  | .error e => .error e
  | .ok (cs, b1) => .ok (String.mk cs, b1)

theorem decNat_enc (n : Nat) (r : Bytes) : decNat (encNat n ++ r) = .ok (n, r) := by
  simp [encNat, decNat]

theorem encInt_length (i : Int) : (encInt i).length = 2 := by
  by_cases h : 0 ≤ i <;> simp [encInt, h]

theorem decInt_enc (i : Int) (r : Bytes) : decInt (encInt i ++ r) = .ok (i, r) := by
  by_cases h : 0 ≤ i
  · simp [encInt, h, decInt, Int.toNat_of_nonneg h]
  · have h2 : 0 ≤ -i := by omega
    simp [encInt, h, decInt, Int.toNat_of_nonneg h2]

theorem decBool_enc (b : Bool) (r : Bytes) : decBool (encBool b ++ r) = .ok (b, r) := by
  cases b <;> simp [encBool, decBool]

theorem decChar_enc (c : Char) (r : Bytes) : decChar (encChar c ++ r) = .ok (c, r) := by
  simp [encChar, decChar, Char.ofNat_toNat]

theorem decListAux_enc {α : Type} (enc : α → Bytes)
    (dec : Bytes → Except DecErr (α × Bytes))
    (h : ∀ x r, dec (enc x ++ r) = .ok (x, r)) (xs : List α) (r : Bytes) :
    decListAux dec xs.length ((xs.map enc).flatten ++ r) = .ok (xs, r) := by
  induction xs generalizing r with
  | nil => simp [decListAux]
  | cons x xs ih => simp [decListAux, List.append_assoc, h, ih]

theorem decList_enc {α : Type} (enc : α → Bytes)
    (dec : Bytes → Except DecErr (α × Bytes))
    (h : ∀ x r, dec (enc x ++ r) = .ok (x, r)) (xs : List α) (r : Bytes) :
    decList dec (encList enc xs ++ r) = .ok (xs, r) := by
  simp [encList, decList, List.append_assoc, decNat_enc, decListAux_enc enc dec h]

theorem decPair_enc {α β : Type} (ea : α → Bytes) (eb : β → Bytes)
    (da : Bytes → Except DecErr (α × Bytes)) (db : Bytes → Except DecErr (β × Bytes))
    (ha : ∀ x r, da (ea x ++ r) = .ok (x, r)) (hb : ∀ y r, db (eb y ++ r) = .ok (y, r))
    (p : α × β) (r : Bytes) : decPair da db (encPair ea eb p ++ r) = .ok (p, r) := by
  simp [encPair, decPair, List.append_assoc, ha, hb]

theorem decString_enc (s : String) (r : Bytes) :
    decString (encString s ++ r) = .ok (s, r) := by
  simp [encString, decString, decList_enc encChar decChar decChar_enc]

def encTransition (t : Transition) : Bytes :=
  encString t.ID ++ encString t.Name ++ encString t.Description ++ encString t.Acronym

def decTransition (b : Bytes) : Except DecErr (Transition × Bytes) :=
  match decString b with
  | .error e => .error e
  | .ok (idv, b1) =>
    match decString b1 with
    | .error e => .error e
    | .ok (name, b2) =>
      match decString b2 with
      | .error e => .error e
      | .ok (descr, b3) =>
        match decString b3 with
        | .error e => .error e
        | .ok (acr, b4) => .ok (⟨idv, name, descr, acr⟩, b4)

def encStatus (s : Status) : Bytes :=
  encString s.Name ++ encString s.Acronym ++ encBool s.IsDone

def decStatus (b : Bytes) : Except DecErr (Status × Bytes) :=
  match decString b with
  | .error e => .error e
  | .ok (name, b1) =>
    match decString b1 with
    | .error e => .error e
    | .ok (acr, b2) =>
      match decBool b2 with
      | .error e => .error e
      | .ok (done, b3) => .ok (⟨name, acr, done⟩, b3)

def encSprint (s : Sprint) : Bytes :=
  encInt s.ID ++ encString s.Name ++ encString s.State ++ encInt s.EndDate

def decSprint (b : Bytes) : Except DecErr (Sprint × Bytes) :=
  match decInt b with
  | .error e => .error e
  | .ok (idv, b1) =>
    match decString b1 with
    | .error e => .error e
    | .ok (name, b2) =>
      match decString b2 with
      | .error e => .error e
      | .ok (st, b3) =>
        match decInt b3 with
        | .error e => .error e
        | .ok (ed, b4) => .ok (⟨idv, name, st, ed⟩, b4)

def encIssue (i : Issue) : Bytes :=
  encString i.Key ++ encString i.Summary ++ encString i.Priority ++
  encStatus i.Status ++ encList encTransition i.Transitions ++
  encList (encPair encString encTransition) i.TransitionsByAcronym ++
  encList (encPair encString encNat) i.OrderByTransitionStatus ++ encInt i.SprintID

def decIssue (b : Bytes) : Except DecErr (Issue × Bytes) :=
  match decString b with
  | .error e => .error e
  | .ok (key, b1) =>
    match decString b1 with
    | .error e => .error e
    | .ok (summary, b2) =>
      match decString b2 with
      | .error e => .error e
      | .ok (prio, b3) =>
        match decStatus b3 with
        | .error e => .error e
        | .ok (st, b4) =>
          match decList decTransition b4 with
          | .error e => .error e
          | .ok (trs, b5) =>
            match decList (decPair decString decTransition) b5 with
            | .error e => .error e
            | .ok (byAcr, b6) =>
              match decList (decPair decString decNat) b6 with
              | .error e => .error e
              | .ok (ord, b7) =>
                match decInt b7 with
                | .error e => .error e
                | .ok (sid, b8) =>
                  .ok (⟨key, summary, prio, st, trs, byAcr, ord, sid⟩, b8)

def encData (d : Data) : Bytes :=
  encInt d.Timestamp ++ encList encIssue d.Issues ++
  encList (encPair encString encIssue) d.IssueByKey ++
  encList encIssue d.Initiatives ++ encList encIssue d.Epics ++
  encList encIssue d.SprintIssues ++ encInt d.BoardID ++
  encList encSprint d.Sprints ++
  encList (encPair encString encSprint) d.SprintsByName ++
  encSprint d.ActiveSprint ++ encList encTransition d.Transitions ++
  encString d.LastIssueCreated

def decData (b : Bytes) : Except DecErr (Data × Bytes) :=
  match decInt b with
  | .error e => .error e
  | .ok (ts, b1) =>
    match decList decIssue b1 with
    | .error e => .error e
    | .ok (issues, b2) =>
      match decList (decPair decString decIssue) b2 with
      | .error e => .error e
      | .ok (byKey, b3) =>
        match decList decIssue b3 with
        | .error e => .error e
        | .ok (inis, b4) =>
          match decList decIssue b4 with
          | .error e => .error e
          | .ok (epics, b5) =>
            match decList decIssue b5 with
            | .error e => .error e
            | .ok (sprIss, b6) =>
              match decInt b6 with
              | .error e => .error e
              | .ok (bid, b7) =>
                match decList decSprint b7 with
                | .error e => .error e
                | .ok (sprints, b8) =>
                  match decList (decPair decString decSprint) b8 with
                  | .error e => .error e
                  | .ok (byName, b9) =>
                    match decSprint b9 with
                    | .error e => .error e
                    | .ok (active, b10) =>
                      match decList decTransition b10 with
                      | .error e => .error e
                      | .ok (trs, b11) =>
                        match decString b11 with
                        | .error e => .error e
                        | .ok (lastKey, b12) =>
                          .ok (⟨ts, issues, byKey, inis, epics, sprIss, bid,
                                sprints, byName, active, trs, lastKey⟩, b12)

theorem decTransition_enc (t : Transition) (r : Bytes) :
    decTransition (encTransition t ++ r) = .ok (t, r) := by
  simp [encTransition, decTransition, List.append_assoc, decString_enc]

theorem decStatus_enc (s : Status) (r : Bytes) :
    decStatus (encStatus s ++ r) = .ok (s, r) := by
  simp [encStatus, decStatus, List.append_assoc, decString_enc, decBool_enc]

theorem decSprint_enc (s : Sprint) (r : Bytes) :
    decSprint (encSprint s ++ r) = .ok (s, r) := by
  simp [encSprint, decSprint, List.append_assoc, decString_enc, decInt_enc]

theorem decIssue_enc (i : Issue) (r : Bytes) :
    decIssue (encIssue i ++ r) = .ok (i, r) := by
  simp [encIssue, decIssue, List.append_assoc, decString_enc, decStatus_enc,
    decInt_enc, decList_enc encTransition decTransition decTransition_enc,
    decList_enc (encPair encString encTransition) (decPair decString decTransition)
      (decPair_enc encString encTransition decString decTransition
        decString_enc decTransition_enc),
    decList_enc (encPair encString encNat) (decPair decString decNat)
      (decPair_enc encString encNat decString decNat decString_enc decNat_enc)]

theorem decData_enc (d : Data) (r : Bytes) :
    decData (encData d ++ r) = .ok (d, r) := by
  simp [encData, decData, List.append_assoc, decString_enc, decSprint_enc,
    decInt_enc, decList_enc encIssue decIssue decIssue_enc,
    decList_enc encSprint decSprint decSprint_enc,
    decList_enc encTransition decTransition decTransition_enc,
    decList_enc (encPair encString encIssue) (decPair decString decIssue)
      (decPair_enc encString encIssue decString decIssue decString_enc decIssue_enc),
    decList_enc (encPair encString encSprint) (decPair decString decSprint)
      (decPair_enc encString encSprint decString decSprint decString_enc decSprint_enc)]

/-! ### The snapshot store: `Data.WriteFile` and `LoadData` -/

/-- The state of the snapshot file at `/tmp/kong`: `none` when the file
does not exist. The advisory file lock always succeeds in this
single-process model (on lock failure the code returns early with no
error, which coincides with the missing-file result). -/
structure FileState where
  file : Option Bytes
deriving DecidableEq, Repr

/-- `Data.WriteFile` from data.go: lock, then create-or-truncate the
file and write the full gob encoding of `d`. -/
def Data.WriteFile (d : Data) (_s : FileState) : FileState :=
  { file := some (encData d) }

/-- The observable outcome of `LoadData`: the returned `Data`, the
returned error, the resulting file state, whether
`printDaemonWarning()` ran, and whether the corrupt-file deletion
message was printed. -/
structure LoadResult where
  data : Data
  error : Option GoErr
  store : FileState
  daemonWarning : Bool
  corruptMessage : Bool
deriving DecidableEq, Repr

/-- The error `NewJira` returns when the config file is absent:
`fmt.Errorf("NewJira: %w", ErrConfigMissing)`. -/
def newJiraConfigMissingErr : GoErr := .wrap "NewJira" .configMissing

/-- `LoadData` from data.go, with the current instant and the outcome
of `initJira`'s config load made explicit (`configOk = false` models a
missing config file, the only `initJira` failure relevant here):
missing file → warn and return `NewData()` (plus `initJira`'s error,
if any); decode success → return the data, warning (and running
`initJira`) when stale; decode failure `io.ErrUnexpectedEOF` → print
the corruption message, delete the file, warn, return `Data{}` with no
error; any other decode failure → return the wrapped decode error with
the file left in place. -/
def LoadData (s : FileState) (now : Int) (configOk : Bool) : LoadResult :=
  match s.file with
  | none =>
    if configOk then ⟨NewData, none, s, true, false⟩
    else ⟨NewData, some newJiraConfigMissingErr, s, true, false⟩
  | some bytes =>
    match decData bytes with
    | .ok (d, _) =>
      if d.Stale now then
        if configOk then ⟨d, none, s, true, false⟩
        else ⟨d, some newJiraConfigMissingErr, s, true, false⟩
      else ⟨d, none, s, false, false⟩
    | .error .truncated => ⟨Data.zero, none, ⟨none⟩, true, true⟩
    | .error .malformed =>
      ⟨NewData, some (.wrap "gob.Decode" (.msg "gob: malformed data")), s, false, false⟩

/-! ### Claim theorems C1-C3 -/

/-- C1: for every Snapshot and refresh interval `i`, the staleness
check is true iff `now - timestamp > 2*i`; in particular it is false
at `now = timestamp + 2*i - 1` and true at `now = timestamp + 2*i + 1`
(strict inequality at exactly twice the refresh interval), and
`Data.Stale` is this check at the daemon's `refreshRate`. -/
theorem stale_iff_twice_interval (d : Data) (now i : Int) :
    (staleCheck d.Timestamp now i = true ↔ now - d.Timestamp > 2 * i) ∧
    staleCheck d.Timestamp (d.Timestamp + 2 * i - 1) i = false ∧
    staleCheck d.Timestamp (d.Timestamp + 2 * i + 1) i = true ∧
    d.Stale now = staleCheck d.Timestamp now refreshRate := by
  refine ⟨?_, ?_, ?_, rfl⟩ <;> simp [staleCheck] <;> omega

/-- C2: writing a Snapshot to the store and loading it back returns a
Snapshot equal to the original over all persisted fields, for every
Snapshot, prior file state, instant and config outcome (when the
loaded snapshot is stale and the config is missing, an error is
returned alongside, but the returned data still equals the original). -/
theorem load_write_roundtrip (d : Data) (s : FileState) (now : Int) (configOk : Bool) :
    (LoadData (d.WriteFile s) now configOk).data = d ∧
    (LoadData (d.WriteFile s) now configOk).store = d.WriteFile s := by
  have h : decData (encData d) = .ok (d, []) := by
    simpa using decData_enc d []
  unfold LoadData Data.WriteFile
  simp only [h]
  by_cases hs : d.Stale now = true <;> cases configOk <;> simp [hs]

/-- C3 counterexample: the byte sequence `[2]` fails to deserialize
(gob reports a non-EOF malformed-data error, not `io.ErrUnexpectedEOF`),
and `LoadData` then returns that error and leaves the file in place —
it neither returns an empty Snapshot without error nor deletes the
file, refuting the claim for arbitrary garbage. -/
theorem load_malformed_not_self_healing :
    decData [2] = .error .malformed ∧
    (LoadData ⟨some [2]⟩ 0 true).error ≠ none ∧
    (LoadData ⟨some [2]⟩ 0 true).store = ⟨some [2]⟩ ∧
    (LoadData ⟨some [2]⟩ 0 true).corruptMessage = false := by
  decide

/-- C3 amended: only a deserialization failure of the truncated-input
kind (`io.ErrUnexpectedEOF`) self-heals: `LoadData` then prints the
corruption message, deletes the file and returns an empty Snapshot
with no error, so a subsequent `LoadData` takes the missing-file path
(daemon warning, empty snapshot, no corruption report); any other
deserialization failure is returned as an error with the file kept. -/
theorem load_truncated_self_heals (bytes : Bytes) (now now2 : Int) (configOk : Bool)
    (h : decData bytes = .error .truncated) :
    LoadData ⟨some bytes⟩ now configOk = ⟨Data.zero, none, ⟨none⟩, true, true⟩ ∧
    LoadData ⟨none⟩ now2 true = ⟨NewData, none, ⟨none⟩, true, false⟩ ∧
    (∀ b2 e, decData b2 = .error .malformed →
      LoadData ⟨some b2⟩ now configOk ≠ ⟨e, none, ⟨none⟩, true, true⟩) := by
  refine ⟨by simp [LoadData, h], rfl, ?_⟩
  intro b2 e h2
  simp [LoadData, h2]

/-- Witness for `load_truncated_self_heals`: the empty byte sequence is
a truncated stream, and `LoadData` on it self-heals as stated. -/
theorem load_truncated_self_heals_witness :
    decData [] = .error .truncated ∧
    LoadData ⟨some []⟩ 5 true = ⟨Data.zero, none, ⟨none⟩, true, true⟩ :=
  ⟨by decide, (load_truncated_self_heals [] 5 7 true (by decide)).1⟩

/-! ### The refresh orchestrator: `Data.load` and the category loaders

The unexported `jira` client is modelled as a `Remote` environment
giving the outcome of each Jira call a loader makes. The concurrent
errgroup fan-out is modelled by running the six loaders in list order:
each loader writes only its own disjoint fields, the group waits for
all of them, and the overall result carries the first error; partial
writes of successful loaders are kept (the source opts out of
cancel-on-error only through context non-use in the loaders'
mutations). -/

structure Remote where
  init : Option GoErr
  issues : Except GoErr (List Issue)
  epics : Except GoErr (List Issue)
  initiatives : Except GoErr (List Issue)
  boardID : Except GoErr Int
  sprintIssues : Except GoErr (List Issue)
  sprints : Int → Except GoErr (List Sprint)

/-- Go map assignment `m[k] = v` on the association-list model. -/
def mapInsert {β : Type} (k : String) (v : β) :
    List (String × β) → List (String × β)
  | [] => [(k, v)]
  | (k2, v2) :: rest =>
    if k2 = k then (k, v) :: rest else (k2, v2) :: mapInsert k v rest

/-- The `for ... { m[key] = value }` loop bodies of `loadIssues` and
`loadSprints`. -/
def mapInsertAll {β : Type} (key : β → String) (m : List (String × β))
    (xs : List β) : List (String × β) :=
  xs.foldl (fun acc x => mapInsert (key x) x acc) m

/-- `Data.loadIssues`: on success indexes every issue into `IssueByKey`
and replaces `Issues`. -/
def Data.loadIssues (d : Data) (r : Remote) : Data × Option GoErr :=
  match r.issues with
  | .error e => (d, some e)
  | .ok issues =>
    ({ d with IssueByKey := mapInsertAll Issue.Key d.IssueByKey issues,
              Issues := issues }, none)

/-- `Data.loadEpics`. -/
def Data.loadEpics (d : Data) (r : Remote) : Data × Option GoErr :=
  match r.epics with
  | .error e => (d, some e)
  | .ok epics => ({ d with Epics := epics }, none)

/-- `Data.loadInitiatives`. -/
def Data.loadInitiatives (d : Data) (r : Remote) : Data × Option GoErr :=
  match r.initiatives with
  | .error e => (d, some e)
  | .ok inis => ({ d with Initiatives := inis }, none)

/-- `Data.loadBoardID`. -/
def Data.loadBoardID (d : Data) (r : Remote) : Data × Option GoErr :=
  match r.boardID with
  | .error e => (d, some e)
  | .ok bid => ({ d with BoardID := bid }, none)

/-- `Data.loadSprintIssues`. -/
def Data.loadSprintIssues (d : Data) (r : Remote) : Data × Option GoErr :=
  match r.sprintIssues with
  | .error e => (d, some e)
  | .ok issues => ({ d with SprintIssues := issues }, none)

/-- `Data.loadSprints`: lazily loads the board id first when it is
still zero — and swallows a board-id failure by returning success
without fetching sprints (`return nil` in the source). -/
def Data.loadSprints (d : Data) (r : Remote) : Data × Option GoErr :=
  let fetch : Data → Data × Option GoErr := fun d1 =>
    match r.sprints d1.BoardID with
    | .error e => (d1, some e)
    | .ok ss =>
      ({ d1 with SprintsByName := mapInsertAll Sprint.Name d1.SprintsByName ss,
                 Sprints := ss }, none)
  if d.BoardID = 0 then
    match r.boardID with
    | .error _ => (d, none)
    | .ok bid => fetch { d with BoardID := bid }
  else fetch d

/-- Remote calls `Data.loadSprints` makes: one for the lazy board-id
load when `BoardID` is zero (after whose failure no sprint fetch
happens), plus one for the sprint listing. -/
def Data.loadSprintsCalls (d : Data) (r : Remote) : Nat :=
  if d.BoardID = 0 then
    match r.boardID with
    | .error _ => 1
    | .ok _ => 2
  else 1

/-- `Data.load` from data.go: `initJira`, then the six concurrent
category loaders joined with first-error-wins, and the timestamp
stamped only on full success. -/
def Data.load (d : Data) (r : Remote) (now : Int) : Data × Option GoErr :=
  match r.init with
  | some e => (d, some e)
  | none =>
    let (d1, e1) := d.loadIssues r
    let (d2, e2) := d1.loadEpics r
    let (d3, e3) := d2.loadInitiatives r
    let (d4, e4) := d3.loadBoardID r
    let (d5, e5) := d4.loadSprintIssues r
    let (d6, e6) := d5.loadSprints r
    match e1 <|> e2 <|> e3 <|> e4 <|> e5 <|> e6 with
    | some e => (d6, some e)
    | none => ({ d6 with Timestamp := now }, none)

/-! ### The foreground accessors -/

/-- `Data.GetIssues` (value receiver): cached issues when fresh,
otherwise a single synchronous `loadIssues`; the third component
counts the remote calls made. -/
def Data.GetIssues (d : Data) (r : Remote) (now : Int) :
    Except GoErr (List Issue) × Data × Nat :=
  if d.Stale now = false then (.ok d.Issues, d, 0)
  else
    match d.loadIssues r with
    | (d1, none) => (.ok d1.Issues, d1, 1)
    | (_, some e) => (.error e, d, 1)

/-- `Data.GetEpics`. -/
def Data.GetEpics (d : Data) (r : Remote) (now : Int) :
    Except GoErr (List Issue) × Data × Nat :=
  if d.Stale now = false then (.ok d.Epics, d, 0)
  else
    match d.loadEpics r with
    | (d1, none) => (.ok d1.Epics, d1, 1)
    | (_, some e) => (.error e, d, 1)

/-- `Data.GetInitiatives`. -/
def Data.GetInitiatives (d : Data) (r : Remote) (now : Int) :
    Except GoErr (List Issue) × Data × Nat :=
  if d.Stale now = false then (.ok d.Initiatives, d, 0)
  else
    match d.loadInitiatives r with
    | (d1, none) => (.ok d1.Initiatives, d1, 1)
    | (_, some e) => (.error e, d, 1)

/-- `Data.GetSprintIssues`. -/
def Data.GetSprintIssues (d : Data) (r : Remote) (now : Int) :
    Except GoErr (List Issue) × Data × Nat :=
  if d.Stale now = false then (.ok d.SprintIssues, d, 0)
  else
    match d.loadSprintIssues r with
    | (d1, none) => (.ok d1.SprintIssues, d1, 1)
    | (_, some e) => (.error e, d, 1)

/-- `Data.GetSprints`. -/
def Data.GetSprints (d : Data) (r : Remote) (now : Int) :
    Except GoErr (List Sprint) × Data × Nat :=
  if d.Stale now = false then (.ok d.Sprints, d, 0)
  else
    match d.loadSprints r with
    | (d1, none) => (.ok d1.Sprints, d1, d.loadSprintsCalls r)
    | (_, some e) => (.error e, d, d.loadSprintsCalls r)

/-! ### The background daemon -/

/-- `Daemon.loop`: run the full refresh on the daemon's data; on
refresh error return it without touching the file; on success write
the refreshed snapshot under the file lock. -/
def daemonLoop (d : Data) (r : Remote) (now : Int) (s : FileState) :
    Data × FileState × Option GoErr :=
  match d.load r now with
  | (d1, some e) => (d1, s, some e)
  | (d1, none) => (d1, d1.WriteFile s, none)

/-- One iteration of `Daemon.Run`: run `loop`, print any error to the
daemon's stderr, sleep, and continue; the final component is whether
the loop continues (always `true` — no refresh failure terminates it). -/
def daemonRunIter (d : Data) (r : Remote) (now : Int) (s : FileState) :
    Data × FileState × List String × Bool :=
  match daemonLoop d r now s with
  | (d1, s1, some e) => (d1, s1, [e.errorString], true)
  | (d1, s1, none) => (d1, s1, [], true)

/-! ### Claim theorems C4, C6, C7 -/

/-- C4: when the epics loader fails and every other loader succeeds,
the full refresh returns the epics loader's error, the successfully
loaded categories are visible on the Snapshot, and the timestamp is
not refreshed; with the epics loader succeeding instead, the refresh
succeeds and stamps the fresh timestamp. -/
theorem load_epics_failure_first_error (d : Data) (r : Remote) (now : Int)
    (e : GoErr) (is ins si : List Issue) (bid : Int) (ss : List Sprint)
    (hinit : r.init = none) (his : r.issues = .ok is) (hep : r.epics = .error e)
    (hini : r.initiatives = .ok ins) (hbid : r.boardID = .ok bid)
    (hsi : r.sprintIssues = .ok si) (hsp : ∀ b, r.sprints b = .ok ss) :
    (d.load r now).2 = some e ∧
    (d.load r now).1.Issues = is ∧
    (d.load r now).1.Initiatives = ins ∧
    (d.load r now).1.SprintIssues = si ∧
    (d.load r now).1.Sprints = ss ∧
    (d.load r now).1.Epics = d.Epics ∧
    (d.load r now).1.Timestamp = d.Timestamp ∧
    (∀ es, (d.load { r with epics := .ok es } now).2 = none ∧
           (d.load { r with epics := .ok es } now).1.Timestamp = now) := by
  by_cases hb : bid = 0 <;>
    simp [Data.load, Data.loadIssues, Data.loadEpics, Data.loadInitiatives,
      Data.loadBoardID, Data.loadSprintIssues, Data.loadSprints, hinit, his,
      hep, hini, hbid, hsi, hsp, hb]

/-- Witness for `load_epics_failure_first_error` at a concrete remote whose
epics loader fails while the rest succeed. -/
theorem load_epics_failure_first_error_witness :
    ((NewData.load ⟨none, .ok [], .error (.wrap "ListEpics" (.remote "boom")),
        .ok [], .ok 7, .ok [], fun _ => .ok []⟩ 42).2 =
      some (.wrap "ListEpics" (.remote "boom"))) ∧
    ((NewData.load ⟨none, .ok [], .error (.wrap "ListEpics" (.remote "boom")),
        .ok [], .ok 7, .ok [], fun _ => .ok []⟩ 42).1.Timestamp = 0) := by
  have h := load_epics_failure_first_error NewData
    ⟨none, .ok [], .error (.wrap "ListEpics" (.remote "boom")),
      .ok [], .ok 7, .ok [], fun _ => .ok []⟩ 42
    (.wrap "ListEpics" (.remote "boom")) [] [] [] 7 []
    rfl rfl rfl rfl rfl rfl (fun _ => rfl)
  exact ⟨h.1, h.2.2.2.2.2.2.1⟩

/-- C6 counterexample: with a remote whose epics loader fails, the
daemon iteration logs the error but leaves the snapshot file exactly
as it was — the resulting Snapshot state is not written, refuting the
unconditional-write part of the claim. -/
theorem daemon_skips_write_on_failure :
    (daemonRunIter NewData
        ⟨none, .ok [], .error (.msg "boom"), .ok [], .ok 7, .ok [],
          fun _ => .ok []⟩ 5 ⟨some [3]⟩).2.1 = ⟨some [3]⟩ ∧
    (daemonRunIter NewData
        ⟨none, .ok [], .error (.msg "boom"), .ok [], .ok 7, .ok [],
          fun _ => .ok []⟩ 5 ⟨some [3]⟩).2.2.1 = ["boom"] ∧
    (∀ d1 : Data, FileState.mk (some [3]) ≠ d1.WriteFile ⟨some [3]⟩) := by
  refine ⟨by decide, by decide, ?_⟩
  intro d1 h
  have h2 : ([3] : Bytes) = encData d1 := by
    simpa [Data.WriteFile, FileState.mk.injEq] using h
  have h3 := congrArg List.length h2
  simp [encData, encInt_length] at h3
  omega

/-- C6 amended: in every daemon iteration, a failed refresh is logged
to the daemon's error stream and the snapshot file is left untouched,
while a successful refresh is written unconditionally; in both cases
the loop continues to the next cycle. -/
theorem daemon_iteration_behavior (d : Data) (r : Remote) (now : Int) (s : FileState) :
    (∀ d1 e, d.load r now = (d1, some e) →
      daemonRunIter d r now s = (d1, s, [e.errorString], true)) ∧
    (∀ d1, d.load r now = (d1, none) →
      daemonRunIter d r now s = (d1, d1.WriteFile s, [], true)) := by
  constructor
  · intro d1 e h
    simp [daemonRunIter, daemonLoop, h]
  · intro d1 h
    simp [daemonRunIter, daemonLoop, h]

/-- Witness for `daemon_iteration_behavior`: a refresh failing at
`initJira` is logged without a write, and a fully successful refresh
is written. -/
theorem daemon_iteration_behavior_witness :
    daemonRunIter NewData ⟨some (.msg "x"), .ok [], .ok [], .ok [], .ok 7,
        .ok [], fun _ => .ok []⟩ 9 ⟨none⟩ =
      (NewData, ⟨none⟩, ["x"], true) ∧
    daemonRunIter NewData ⟨none, .ok [], .ok [], .ok [], .ok 7,
        .ok [], fun _ => .ok []⟩ 9 ⟨none⟩ =
      ({ NewData with BoardID := 7, Timestamp := 9 },
        ({ NewData with BoardID := 7, Timestamp := 9 } : Data).WriteFile ⟨none⟩,
        [], true) := by
  constructor
  · exact (daemon_iteration_behavior NewData ⟨some (.msg "x"), .ok [], .ok [],
      .ok [], .ok 7, .ok [], fun _ => .ok []⟩ 9 ⟨none⟩).1 NewData (.msg "x") rfl
  · exact (daemon_iteration_behavior NewData ⟨none, .ok [], .ok [],
      .ok [], .ok 7, .ok [], fun _ => .ok []⟩ 9 ⟨none⟩).2
      { NewData with BoardID := 7, Timestamp := 9 } (by decide)

/-- C7 counterexample: on a stale Snapshot whose board id is still
zero, `GetSprints` performs two remote fetches (board id and sprints)
and returns a Snapshot whose `BoardID` field changed — it neither
fetches only the sprints category nor leaves every other field of the
Snapshot unchanged. -/
theorem get_sprints_touches_board_id :
    (Data.zero.GetSprints ⟨none, .ok [], .ok [], .ok [], .ok 7, .ok [],
        fun _ => .ok [⟨7, "Sprint 1", "active", 0⟩]⟩ 100).2.1.BoardID ≠
      Data.zero.BoardID ∧
    (Data.zero.GetSprints ⟨none, .ok [], .ok [], .ok [], .ok 7, .ok [],
        fun _ => .ok [⟨7, "Sprint 1", "active", 0⟩]⟩ 100).2.2 = 2 ∧
    Data.zero.Stale 100 = true := by
  decide

/-- C7 amended: when the Snapshot is fresh, every accessor returns its
cached field with no remote call and no change to the Snapshot; when
it is stale, `GetEpics`, `GetInitiatives` and `GetSprintIssues` fetch
exactly their own category and change only that field, `GetIssues`
fetches only the issues category but also updates the derived
`IssueByKey` index, and `GetSprints` updates `Sprints` together with
the derived `SprintsByName` index — additionally loading and storing
`BoardID` (a second remote call) when it is still zero. -/
theorem accessors_single_category (d : Data) (r : Remote) (now : Int) :
    (d.Stale now = false →
      d.GetIssues r now = (.ok d.Issues, d, 0) ∧
      d.GetEpics r now = (.ok d.Epics, d, 0) ∧
      d.GetInitiatives r now = (.ok d.Initiatives, d, 0) ∧
      d.GetSprintIssues r now = (.ok d.SprintIssues, d, 0) ∧
      d.GetSprints r now = (.ok d.Sprints, d, 0)) ∧
    (d.Stale now = true →
      (∀ xs, r.issues = .ok xs → d.GetIssues r now =
        (.ok xs,
          { d with
              Issues := xs,
              IssueByKey := mapInsertAll Issue.Key d.IssueByKey xs }, 1)) ∧
      (∀ xs, r.epics = .ok xs → d.GetEpics r now =
        (.ok xs, { d with Epics := xs }, 1)) ∧
      (∀ xs, r.initiatives = .ok xs → d.GetInitiatives r now =
        (.ok xs, { d with Initiatives := xs }, 1)) ∧
      (∀ xs, r.sprintIssues = .ok xs → d.GetSprintIssues r now =
        (.ok xs, { d with SprintIssues := xs }, 1)) ∧
      (∀ ss, d.BoardID ≠ 0 → r.sprints d.BoardID = .ok ss → d.GetSprints r now =
        (.ok ss,
          { d with
              Sprints := ss,
              SprintsByName := mapInsertAll Sprint.Name d.SprintsByName ss }, 1)) ∧
      (∀ bid ss, d.BoardID = 0 → r.boardID = .ok bid → r.sprints bid = .ok ss →
        d.GetSprints r now =
        (.ok ss,
          { d with
              BoardID := bid,
              Sprints := ss,
              SprintsByName := mapInsertAll Sprint.Name d.SprintsByName ss }, 2))) := by
  constructor
  · intro hfresh
    refine ⟨?_, ?_, ?_, ?_, ?_⟩ <;>
      simp [Data.GetIssues, Data.GetEpics, Data.GetInitiatives,
        Data.GetSprintIssues, Data.GetSprints, hfresh]
  · intro hstale
    refine ⟨?_, ?_, ?_, ?_, ?_, ?_⟩
    · intro xs hxs
      simp [Data.GetIssues, hstale, Data.loadIssues, hxs]
    · intro xs hxs
      simp [Data.GetEpics, hstale, Data.loadEpics, hxs]
    · intro xs hxs
      simp [Data.GetInitiatives, hstale, Data.loadInitiatives, hxs]
    · intro xs hxs
      simp [Data.GetSprintIssues, hstale, Data.loadSprintIssues, hxs]
    · intro ss hb hs
      simp [Data.GetSprints, hstale, Data.loadSprints, Data.loadSprintsCalls, hb, hs]
    · intro bid ss hb hbid hs
      simp [Data.GetSprints, hstale, Data.loadSprints, Data.loadSprintsCalls,
        hb, hbid, hs]

/-- Witness for `accessors_single_category`: the fresh path on a
just-stamped Snapshot, and the stale path of `GetEpics` on an expired
one, at concrete inputs. -/
theorem accessors_single_category_witness :
    ({ Data.zero with Timestamp := 95 } : Data).GetEpics
        ⟨none, .ok [], .ok [], .ok [], .ok 7, .ok [], fun _ => .ok []⟩ 100 =
      (.ok [], { Data.zero with Timestamp := 95 }, 0) ∧
    Data.zero.GetEpics
        ⟨none, .ok [], .ok [⟨"KONG-9", "s", "High", ⟨"", "", false⟩, [], [], [], 0⟩],
          .ok [], .ok 7, .ok [], fun _ => .ok []⟩ 100 =
      (.ok [⟨"KONG-9", "s", "High", ⟨"", "", false⟩, [], [], [], 0⟩],
        { Data.zero with
            Epics := [⟨"KONG-9", "s", "High", ⟨"", "", false⟩, [], [], [], 0⟩] }, 1) := by
  constructor
  · exact ((accessors_single_category { Data.zero with Timestamp := 95 }
      ⟨none, .ok [], .ok [], .ok [], .ok 7, .ok [], fun _ => .ok []⟩ 100).1
      (by decide)).2.1
  · exact ((accessors_single_category Data.zero
      ⟨none, .ok [], .ok [⟨"KONG-9", "s", "High", ⟨"", "", false⟩, [], [], [], 0⟩],
        .ok [], .ok 7, .ok [], fun _ => .ok []⟩ 100).2
      (by decide)).2.1 _ rfl

/-! ### `Jira.GetBoardID` -/

/-- The remote's behavior for `GetBoardID`'s single request: either
`client.Do` fails (non-success status, whose body text
`parseResponseError` turns into an error), or the response parses to
the `values` array of board ids. -/
structure BoardRemote where
  doErr : Option String
  values : List Int
deriving DecidableEq, Repr

/-- Outcome of `Jira.GetBoardID`. -/
inductive BoardIDResult where
  | ok (id : Int) : BoardIDResult
  | err (e : GoErr) : BoardIDResult
  | panics : BoardIDResult
deriving DecidableEq, Repr

/-- Whether a `GetBoardID` outcome is a returned error. -/
def BoardIDResult.isErr : BoardIDResult → Bool
  | .err _ => true
  | _ => false

/-- `Jira.GetBoardID` from jira.go: on request failure, wrap the
remote body error; otherwise index `result.Values[0]` — which panics
with an index-out-of-range when the remote returned zero boards. -/
def GetBoardID (r : BoardRemote) : BoardIDResult :=
  match r.doErr with
  | some body => .err (.wrap "GetBoardID" (.remote body))
  | none =>
    match r.values with
    | [] => .panics
    | v :: _ => .ok v

/-- C5 counterexample: when the remote succeeds but returns zero
boards, `GetBoardID` does not fail with a `RemoteError` (it does not
return an error at all) — it panics indexing the empty board list. -/
theorem get_board_id_zero_boards_not_remote_error :
    (GetBoardID ⟨none, []⟩).isErr = false ∧
    GetBoardID ⟨none, []⟩ = .panics := by
  decide

/-- C5 amended: when the remote returns zero boards, `GetBoardID`
panics on the empty index — so it never silently yields a zero board
id, but the failure is a panic, not a returned `RemoteError`; a
`RemoteError` (the response body, wrapped) is returned exactly when
the request itself fails. -/
theorem get_board_id_zero_boards_panics (r : BoardRemote)
    (hok : r.doErr = none) (hempty : r.values = []) :
    GetBoardID r = .panics ∧
    (∀ id, GetBoardID r ≠ .ok id) ∧
    (∀ body vs, GetBoardID ⟨some body, vs⟩ =
      .err (.wrap "GetBoardID" (.remote body))) := by
  refine ⟨by simp [GetBoardID, hok, hempty], ?_, fun body vs => rfl⟩
  intro id
  simp [GetBoardID, hok, hempty]

/-- Witness for `get_board_id_zero_boards_panics` at the empty-board
remote. -/
theorem get_board_id_zero_boards_panics_witness :
    GetBoardID ⟨none, []⟩ = .panics ∧
    GetBoardID ⟨some "no board", []⟩ =
      .err (.wrap "GetBoardID" (.remote "no board")) :=
  ⟨(get_board_id_zero_boards_panics ⟨none, []⟩ rfl rfl).1,
   (get_board_id_zero_boards_panics ⟨none, []⟩ rfl rfl).2.2 "no board" []⟩

/-! ### The CLI `exit` routine (cmd/kong.go) -/

/-- The fixed remediation prompt printed for a missing configuration. -/
def configMissingPrompt : String := "Configuration is missing. Run kong configure"

/-- What `exit` does: the single line written to standard error and
the process exit code. -/
structure ExitOutcome where
  line : String
  code : Nat
deriving DecidableEq, Repr

/-- `exit` from cmd/kong.go: the fixed prompt when the error is (`==`,
Go pointer equality, not `errors.Is`) the `ErrConfigMissing` sentinel,
otherwise the error's own text; exit code 1 either way. -/
def exitRoutine (e : GoErr) : ExitOutcome :=
  if e = .configMissing then ⟨configMissingPrompt, 1⟩
  else ⟨e.errorString, 1⟩

/-- C9 counterexample: when the missing-config error reaches `exit`
wrapped by `NewJira` (`fmt.Errorf("NewJira: %w", ErrConfigMissing)`),
the `==` sentinel comparison fails and the raw error text is printed
instead of the fixed remediation prompt. -/
theorem exit_wrapped_config_missing_prints_raw :
    exitRoutine newJiraConfigMissingErr =
      ⟨"NewJira: configuration missing", 1⟩ ∧
    (exitRoutine newJiraConfigMissingErr).line ≠ configMissingPrompt := by
  decide

/-- C9 amended: `exit` always exits with code 1; it prints the fixed
remediation prompt exactly when the error is the unwrapped
`ErrConfigMissing` sentinel itself, and for an error wrapped by an
intermediate layer (such as `NewJira`) it prints the wrapped error's
own text — even when the wrapped error is `ErrConfigMissing`. -/
theorem exit_code_one_and_sentinel_prompt (e : GoErr) :
    (exitRoutine e).code = 1 ∧
    (e = .configMissing → (exitRoutine e).line = configMissingPrompt) ∧
    (∀ label e2, exitRoutine (.wrap label e2) =
      ⟨label ++ ": " ++ e2.errorString, 1⟩) := by
  refine ⟨?_, ?_, ?_⟩
  · unfold exitRoutine
    split <;> rfl
  · intro h
    simp [exitRoutine, h]
  · intro label e2
    simp [exitRoutine, GoErr.errorString]

/-- Witness for `exit_code_one_and_sentinel_prompt` at the sentinel
and at the `NewJira`-wrapped missing-config error. -/
theorem exit_code_one_and_sentinel_prompt_witness :
    (exitRoutine .configMissing).line = configMissingPrompt ∧
    exitRoutine (.wrap "NewJira" .configMissing) =
      ⟨"NewJira" ++ ": " ++ GoErr.errorString .configMissing, 1⟩ :=
  ⟨(exit_code_one_and_sentinel_prompt .configMissing).2.1 rfl,
   (exit_code_one_and_sentinel_prompt .configMissing).2.2 "NewJira" .configMissing⟩

/-! ### Raw Jira issues and their normalization (model.go) -/

/-- `jira.StatusCategory`, reduced to the `Key` field the code reads. -/
structure JiraStatusCategory where
  key : String
deriving DecidableEq, Repr

/-- A raw Jira status (`transition.To` has the same shape). -/
structure JiraStatusRaw where
  name : String
  description : String
  statusCategory : JiraStatusCategory
deriving DecidableEq, Repr

/-- A raw Jira transition: its id and target status. -/
structure JiraTransitionRaw where
  id : String
  toStatus : JiraStatusRaw
deriving DecidableEq, Repr

/-- A raw Jira priority, reduced to its name. -/
structure JiraPriorityRaw where
  name : String
deriving DecidableEq, Repr

/-- One entry of the untyped sprint list stored in the project's
sprint custom field. -/
structure JiraSprintEntry where
  state : String
  id : Int
deriving DecidableEq, Repr

/-- The raw issue fields the normalization reads; `unknowns` is the
`Fields.Unknowns` map restricted to sprint-list values. -/
structure JiraFields where
  summary : String
  priority : Option JiraPriorityRaw
  status : Option JiraStatusRaw
  unknowns : List (String × List JiraSprintEntry)
deriving DecidableEq, Repr

/-- A raw `jira.Issue` as consumed by `NewIssues`: `fields` is a
pointer (nil modelled as `none`). -/
structure JiraIssue where
  key : String
  fields : Option JiraFields
  transitions : List JiraTransitionRaw
deriving DecidableEq, Repr

/-- `CustomFields` from config.go. -/
structure CustomFields where
  Epics : String
  Sprints : String
  StoryPoints : String
deriving DecidableEq, Repr

/-- `strings.Split(name, " ")` on the character-list view: split at
every single space, keeping empty words (so the empty string yields
one empty word, and consecutive spaces yield an empty word between
them). -/
def splitSpace : List Char → List (List Char)
  | [] => [[]]
  | c :: rest =>
    let r := splitSpace rest
    if c = ' ' then [] :: r
    else
      match r with
      | [] => [[c]]
      | w :: ws => (c :: w) :: ws

/-- The per-word body of `statusAcronym`'s loop: take `word[0]` of
each word (a panic, modelled as `none`, when a word is empty) and
lowercase it. `word[0]` is the leading byte; for the ASCII status
names at issue it coincides with the leading character. -/
def acronymChars : List (List Char) → Option (List Char)
  | [] => some []
  | [] :: _ => none
  | (c :: _) :: ws => (acronymChars ws).map (fun cs => c.toLower :: cs)

/-- `statusAcronym` from model.go:
`for _, word := range strings.Split(name, " ")` writes the lowercased
first byte of each word; indexing an empty word panics. -/
def statusAcronym (name : String) : Option String :=
  (acronymChars (splitSpace name.data)).map String.mk

/-- `NewStatus` from model.go: the zero `Status` when the issue has no
fields or no status pointer, otherwise the status name, its acronym
(propagating `statusAcronym`'s panic) and the done-category flag. -/
def NewStatus (issue : JiraIssue) : Option Status :=
  match issue.fields with
  | none => some ⟨"", "", false⟩
  | some f =>
    match f.status with
    | none => some ⟨"", "", false⟩
    | some st =>
      (statusAcronym st.name).map fun acr =>
        ⟨st.name, acr, st.statusCategory.key == "done"⟩

def errJiraKeyEmpty : GoErr := .msg "key cannot be empty"
def errJiraFieldEmpty : GoErr := .msg "fields cannot be nil"
def errJiraSummaryEmpty : GoErr := .msg "summary cannot be empty"
def errJiraPriorityNil : GoErr := .msg "priority cannot be nil"
def errJiraPriorityNameEmpty : GoErr := .msg "priority name cannot be empty"
def errJiraTransitionsEmpty : GoErr := .msg "transitions cannot be empty"

/-- `NewIssue` from model.go: `validateJiraIssue` inlined in its check
order, then the base issue with its `NewStatus` (whose acronym
computation can panic); the shared transition structures are filled in
by `NewIssues`. -/
def NewIssue (i : JiraIssue) : RunResult Issue :=
  if i.key = "" then .error errJiraKeyEmpty
  else
    match i.fields with
    | none => .error errJiraFieldEmpty
    | some f =>
      if f.summary = "" then .error errJiraSummaryEmpty
      else
        match f.priority with
        | none => .error errJiraPriorityNil
        | some p =>
          if p.name = "" then .error errJiraPriorityNameEmpty
          else if i.transitions.isEmpty then .error errJiraTransitionsEmpty
          else
            match NewStatus i with
            | none => .panics
            | some st => .ok ⟨i.key, f.summary, p.name, st, [], [], [], 0⟩

/-- The transition-initialization loop of `NewIssues`: builds the
shared transitions list (in order), the acronym index and the
status-name→rank index, propagating a `statusAcronym` panic. -/
def buildTransitionsAux : List JiraTransitionRaw → Nat → List Transition →
    List (String × Transition) → List (String × Nat) →
    Option (List Transition × List (String × Transition) × List (String × Nat))
  | [], _, trs, byAcr, ord => some (trs.reverse, byAcr, ord)
  | t :: ts, j, trs, byAcr, ord =>
    match statusAcronym t.toStatus.name with
    | none => none
    | some acr =>
      buildTransitionsAux ts (j + 1)
        (⟨t.id, t.toStatus.name, t.toStatus.description, acr⟩ :: trs)
        (mapInsert acr ⟨t.id, t.toStatus.name, t.toStatus.description, acr⟩ byAcr)
        (mapInsert t.toStatus.name j ord)

def buildTransitions (ts : List JiraTransitionRaw) :
    Option (List Transition × List (String × Transition) × List (String × Nat)) :=
  buildTransitionsAux ts 0 [] [] []

/-- The sprint-custom-field read of `NewIssues`: the id of the first
`active` entry of the sprint list stored under the configured custom
field name, 0 when the field is absent or has no active entry. -/
def sprintIDFromUnknowns (cf : CustomFields) (f : JiraFields) : Int :=
  match (f.unknowns.find? (fun p => p.1 == cf.Sprints)).map Prod.snd with
  | none => 0
  | some entries =>
    match entries.find? (fun s => s.state == "active") with
    | none => 0
    | some s => s.id

/-- The per-issue loop of `NewIssues`, carrying the shared transition
structures initialized from the first issue. -/
def NewIssuesAux (cf : CustomFields) : List JiraIssue → List Transition →
    List (String × Transition) → List (String × Nat) → RunResult (List Issue)
  | [], _, _, _ => .ok []
  | i :: rest, trs, byAcr, ord =>
    match NewIssue i with
    | .error e => .error (.wrap "NewIssues" e)
    | .panics => .panics
    | .ok base =>
      match (if trs.isEmpty then buildTransitions i.transitions
             else some (trs, byAcr, ord)) with
      | none => .panics
      | some (trs1, byAcr1, ord1) =>
        let sid : Int :=
          match i.fields with
          | none => 0
          | some f => sprintIDFromUnknowns cf f
        match NewIssuesAux cf rest trs1 byAcr1 ord1 with
        | .error e => .error e
        | .panics => .panics
        | .ok rest2 =>
          .ok ({ base with
                   Transitions := trs1,
                   TransitionsByAcronym := byAcr1,
                   OrderByTransitionStatus := ord1,
                   SprintID := sid } :: rest2)

/-- `NewIssues` from model.go. -/
def NewIssues (jiraIssues : List JiraIssue) (cf : CustomFields) :
    RunResult (List Issue) :=
  NewIssuesAux cf jiraIssues [] [] []

theorem acronymChars_eq_none_iff (ws : List (List Char)) :
    acronymChars ws = none ↔ [] ∈ ws := by
  induction ws with
  | nil => simp [acronymChars]
  | cons w ws ih =>
    cases w with
    | nil => simp [acronymChars]
    | cons c cs => simp [acronymChars, Option.map_eq_none, ih]

/-- C10: the status-acronym computation is partial: it is undefined
(an index-out-of-range panic on `word[0]`) exactly when splitting the
name on single spaces yields an empty word — in particular on the
empty name and on a name with consecutive spaces — and then
`NewStatus` on an issue carrying that status name panics instead of
returning a value or an error, as does `NewIssues` on a batch
containing such an issue (shown at a concrete batch). -/
theorem status_acronym_panics_on_empty_word (issue : JiraIssue)
    (f : JiraFields) (st : JiraStatusRaw)
    (hf : issue.fields = some f) (hst : f.status = some st)
    (hname : [] ∈ splitSpace st.name.data) :
    (∀ n : String, statusAcronym n = none ↔ [] ∈ splitSpace n.data) ∧
    statusAcronym "" = none ∧
    statusAcronym "In  Progress" = none ∧
    NewStatus issue = none ∧
    NewIssues [⟨"KONG-1", some ⟨"s", some ⟨"High"⟩, some ⟨"a  b", "",
      ⟨"new"⟩⟩, []⟩, [⟨"11", ⟨"To Do", "", ⟨"new"⟩⟩⟩]⟩] ⟨"e", "sp", "pt"⟩ =
      .panics := by
  have hgen : ∀ n : String, statusAcronym n = none ↔ [] ∈ splitSpace n.data := by
    intro n
    simp [statusAcronym, Option.map_eq_none, acronymChars_eq_none_iff]
  refine ⟨hgen, by decide, by decide, ?_, by decide⟩
  simp [NewStatus, hf, hst, (hgen st.name).2 hname]

/-- Witness for `status_acronym_panics_on_empty_word` at an issue whose status name
contains consecutive spaces. -/
theorem status_acronym_panics_on_empty_word_witness :
    NewStatus ⟨"KONG-1", some ⟨"s", some ⟨"High"⟩, some ⟨"a  b", "",
      ⟨"new"⟩⟩, []⟩, [⟨"11", ⟨"To Do", "", ⟨"new"⟩⟩⟩]⟩ = none :=
  (status_acronym_panics_on_empty_word
    ⟨"KONG-1", some ⟨"s", some ⟨"High"⟩, some ⟨"a  b", "", ⟨"new"⟩⟩, []⟩,
      [⟨"11", ⟨"To Do", "", ⟨"new"⟩⟩⟩]⟩
    ⟨"s", some ⟨"High"⟩, some ⟨"a  b", "", ⟨"new"⟩⟩, []⟩
    ⟨"a  b", "", ⟨"new"⟩⟩ rfl rfl (by decide)).2.2.2.1

/-! ### `Jira.search` pagination -/

/-- One page of the Jira search API response: the page's raw issues
and the reported total. -/
structure SearchPage where
  items : List JiraIssue
  total : Nat
deriving DecidableEq, Repr

/-- The remote as `Jira.search` sees it: a response per `startAt`
offset (`.error` is a non-success status already turned into the
body-carrying error by `parseResponseError`). -/
abbrev SearchRemote := Nat → Except GoErr SearchPage

/-- The pagination for-loop of `Jira.search`: request at `startAt`,
abort on page failure with the wrapped error and no partial results,
else accumulate and stop once the accumulated count reaches the
reported total, advancing `startAt` by the page length. The fuel
bounds the unbounded Go loop; `none` means it has not terminated
within the fuel. The second component counts page requests. -/
def searchLoop (remote : SearchRemote) : Nat → Nat → List JiraIssue → Nat →
    Option (Except GoErr (List JiraIssue) × Nat)
  | 0, _, _, _ => none
  | fuel + 1, startAt, acc, reqs =>
    match remote startAt with
    | .error e => some (.error (.wrap "search" e), reqs + 1)
    | .ok page =>
      let acc1 := acc ++ page.items
      if page.total ≤ acc1.length then some (.ok acc1, reqs + 1)
      else searchLoop remote fuel (startAt + page.items.length) acc1 (reqs + 1)

/-- `Jira.search` from jira.go: paginate, then normalize the
accumulated raw issues with `NewIssues`. -/
def search (remote : SearchRemote) (cf : CustomFields) (fuel : Nat) :
    Option (RunResult (List Issue) × Nat) :=
  match searchLoop remote fuel 0 [] 0 with
  | none => none
  | some (.error e, reqs) => some (.error e, reqs)
  | some (.ok raw, reqs) => some (NewIssues raw cf, reqs)

/-- A well-behaved fake remote over a fixed issue list: the page at
`startAt` is the next `maxResults` issues and the total is the full
count. -/
def pagedRemote (issues : List JiraIssue) (maxResults : Nat) : SearchRemote :=
  fun startAt => .ok ⟨(issues.drop startAt).take maxResults, issues.length⟩

/-- The keys of a successful search result. -/
def searchKeys (o : Option (RunResult (List Issue) × Nat)) : Option (List String) :=
  match o with
  | some (.ok issues, _) => some (issues.map Issue.Key)
  | _ => none

/-- The number of page requests a search issued. -/
def searchReqs (o : Option (RunResult (List Issue) × Nat)) : Option Nat :=
  o.map Prod.snd

/-- The transitions shared by the fake remote's issues. -/
def c8Transitions : List JiraTransitionRaw :=
  [⟨"11", ⟨"To Do", "", ⟨"new"⟩⟩⟩, ⟨"21", ⟨"In Progress", "", ⟨"indeterminate"⟩⟩⟩]

/-- A valid raw issue of the fake remote with the given key. -/
def c8Issue (k : String) : JiraIssue :=
  ⟨k, some ⟨"s", some ⟨"High"⟩, some ⟨"To Do", "", ⟨"new"⟩⟩, []⟩, c8Transitions⟩

/-- The fake remote's five issues, in creation (key-ascending) order. -/
def c8FiveIssues : List JiraIssue :=
  [c8Issue "KONG-1", c8Issue "KONG-2", c8Issue "KONG-3",
   c8Issue "KONG-4", c8Issue "KONG-5"]

/-- C8: against a fake remote reporting `total = 5` with page size
`maxResults = 2`, `search` issues exactly 3 page requests and returns
all 5 normalized Issues, accumulated in page order with keys in
ascending creation order; and a failure on the second page aborts the
whole search with the wrapped remote error and no partial results. -/
theorem search_pagination_five_two :
    searchReqs (search (pagedRemote c8FiveIssues 2) ⟨"e", "sp", "pt"⟩ 10) =
      some 3 ∧
    searchKeys (search (pagedRemote c8FiveIssues 2) ⟨"e", "sp", "pt"⟩ 10) =
      some ["KONG-1", "KONG-2", "KONG-3", "KONG-4", "KONG-5"] ∧
    ("KONG-1".data < "KONG-2".data ∧ "KONG-2".data < "KONG-3".data ∧
      "KONG-3".data < "KONG-4".data ∧ "KONG-4".data < "KONG-5".data) ∧
    search (fun startAt =>
        if startAt = 0 then .ok ⟨c8FiveIssues.take 2, 5⟩
        else .error (.remote "boom")) ⟨"e", "sp", "pt"⟩ 10 =
      some (.error (.wrap "search" (.remote "boom")), 2) := by
  refine ⟨by decide, by decide, by decide, by decide⟩

end Kong
